import Mathlib

/-!
Verification of the review acquisition and pagination engine in
`src/app/api/reviews/route.ts` (Next.js API route).

The TypeScript is shallowly embedded: the network layer (`fetch`),
the HTML/JSON parsing layer (cheerio / `JSON.parse`) and the
locale-dependent date renderer (`Date.toLocaleDateString`) are treated
as oracles — their already-parsed results are explicit inputs to the
Lean functions, and the date renderer is an arbitrary function
`humanDate : Int → String`.  Everything the route itself computes
(truthiness coercions, the tag-stripping regex replace, `parseInt`,
the credential resolution, the review normalization loops, and the
`GET` handler branching) is translated directly from the source.
-/

/-- Quote character (code 39), used to spell message strings without
apostrophe literals. -/
def SQ : String := (Char.ofNat 39).toString

/-- Models the JavaScript expression `x || d` for a possibly absent
string `x`: an absent or empty (falsy) string yields the default. -/
def jsOrStr (x : Option String) (d : String) : String :=
  match x with
  | some s => if s = "" then d else s
  | none => d

/-- Models `x || null` for a possibly absent string: the result is
either `none` or a non-empty string. -/
def jsOrNullStr (x : Option String) : Option String :=
  match x with
  | some s => if s = "" then none else some s
  | none => none

/-- JS truthiness of an optional string (`!x` is the negation). -/
def jsTruthyStr (x : Option String) : Bool :=
  match x with
  | some s => decide (s ≠ "")
  | none => false

/-- Models the JS comparison `page > 1` where `page` is a number that
may be `NaN` (modelled as `none`); `NaN > 1` is `false`. -/
def jsGtOne (x : Option Int) : Bool :=
  match x with
  | some n => decide (1 < n)
  | none => false

/-- Models `createdAt ? humanDate(createdAt) : ""` — a JS number is
falsy when absent or zero. -/
def jsDate (humanDate : Int → String) (createdAt : Option Int) : String :=
  match createdAt with
  | some t => if t = 0 then "" else humanDate t
  | none => ""

/-- `begins pat l` : `pat` is an initial segment of `l`. -/
def begins : List Char → List Char → Bool
  | [], _ => true
  | _ :: _, [] => false
  | a :: as, b :: bs => a = b && begins as bs

/-- Substring search on character lists (JS `String.includes`). -/
def hasSub (needle : List Char) : List Char → Bool
  | [] => needle.isEmpty
  | c :: rest => begins needle (c :: rest) || hasSub needle rest

/-- Models `hay.includes(needle)` on strings. -/
def strIncludes (hay needle : String) : Bool :=
  hasSub needle.data hay.data

/-- Models JS `parseInt(s, 10)`: skip leading whitespace, read an
optional sign, then the longest run of decimal digits; `none` models
`NaN` (no digits found). -/
def jsParseInt (s : String) : Option Int :=
  let cs := s.data.dropWhile fun c => c = ' ' ∨ c = '\t' ∨ c = '\n' ∨ c = '\r'
  let signAndRest : Int × List Char :=
    match cs with
    | '-' :: rest => (-1, rest)
    | '+' :: rest => (1, rest)
    | _ => (1, cs)
  let ds := signAndRest.2.takeWhile fun c => '0' ≤ c ∧ c ≤ '9'
  if ds.isEmpty then none
  else some (signAndRest.1 * (ds.foldl (fun acc c => acc * 10 + (c.toNat - '0'.toNat)) 0 : Nat))

/-- Drop characters through (and including) the first `>`; `none` when
there is no `>`.  Models how the regex `<[^>]*>` consumes up to the
first closing delimiter. -/
def dropThroughGt : List Char → Option (List Char)
  | [] => none
  | c :: rest => if c = '>' then some rest else dropThroughGt rest

theorem dropThroughGt_length :
    ∀ (l l' : List Char), dropThroughGt l = some l' → l'.length < l.length := by
  intro l
  induction l with
  | nil => intro l' h; simp [dropThroughGt] at h
  | cons c rest ih =>
    intro l' h
    unfold dropThroughGt at h
    by_cases hc : c = '>'
    · simp [hc] at h
      subst h
      simp
    · simp only [if_neg hc] at h
      exact Nat.lt_trans (ih l' h) (by simp)

/-- `true` when the list still contains a `>`. -/
def hasGt : List Char → Bool
  | [] => false
  | c :: rest => if c = '>' then true else hasGt rest

/-- `true` when a `<` occurs with some `>` after it — i.e. the string
still contains a `<...>` delimited substring. -/
def hasTagSpan : List Char → Bool
  | [] => false
  | c :: rest => if c = '<' then (hasGt rest || hasTagSpan rest) else hasTagSpan rest

/-- Fuel-indexed left-to-right removal of `<...>` spans, the semantics
of the global regex replace `text.replace(/<[^>]*>/g, "")`: at a `<`
with a later `>`, everything through that first `>` is removed and
scanning resumes after it (non-recursively); a `<` with no later `>`
matches nothing, and nothing after it can match either, so the rest is
kept verbatim. -/
def stripTagsFuel : Nat → List Char → List Char
  | 0, l => l
  | fuel + 1, l =>
    match l with
    | [] => []
    | c :: rest =>
      if c = '<' then
        match dropThroughGt rest with
        | some after => stripTagsFuel fuel after
        | none => c :: rest
      else c :: stripTagsFuel fuel rest

/-- Models `s.replace(/<[^>]*>/g, "")`. -/
def stripTags (s : String) : String :=
  String.mk (stripTagsFuel s.data.length s.data)

theorem dropThroughGt_none (l : List Char) (h : dropThroughGt l = none) :
    hasGt l = false := by
  induction l with
  | nil => rfl
  | cons c rest ih =>
    unfold dropThroughGt at h
    by_cases hc : c = '>'
    · simp [hc] at h
    · simp only [if_neg hc] at h
      simp [hasGt, hc, ih h]

theorem hasTagSpan_of_no_gt (l : List Char) (h : hasGt l = false) :
    hasTagSpan l = false := by
  induction l with
  | nil => rfl
  | cons c rest ih =>
    have hrest : hasGt rest = false := by
      unfold hasGt at h
      by_cases hc : c = '>'
      · simp [hc] at h
      · simpa [hc] using h
    have hcgt : c ≠ '>' := by
      intro hc; rw [hc] at h; simp [hasGt] at h
    unfold hasTagSpan
    by_cases hc : c = '<'
    · simp [hc, hrest, ih hrest]
    · simp [hc, ih hrest]

/-- Core invariant: after the left-to-right removal no `<...>` span
remains, provided the fuel covers the input length. -/
theorem stripTagsFuel_noSpan :
    ∀ (fuel : Nat) (l : List Char), l.length ≤ fuel →
      hasTagSpan (stripTagsFuel fuel l) = false := by
  intro fuel
  induction fuel with
  | zero =>
    intro l h
    have : l = [] := List.eq_nil_of_length_eq_zero (Nat.le_zero.mp h)
    subst this
    rfl
  | succ n ih =>
    intro l h
    match l with
    | [] => simp [stripTagsFuel, hasTagSpan]
    | c :: rest =>
      have hlen : rest.length ≤ n := by
        simpa using Nat.le_of_succ_le_succ (by simpa [List.length] using h)
      by_cases hc : c = '<'
      · cases hdg : dropThroughGt rest with
        | some after =>
          have hafter : after.length ≤ n :=
            Nat.le_trans (Nat.le_of_lt (dropThroughGt_length rest after hdg)) hlen
          simpa [stripTagsFuel, hc, hdg] using ih after hafter
        | none =>
          have hg := dropThroughGt_none rest hdg
          simp [stripTagsFuel, hc, hdg, hasTagSpan, hg, hasTagSpan_of_no_gt rest hg]
      · simpa [stripTagsFuel, hc, hasTagSpan] using ih rest hlen

/-- No `<...>` span survives `stripTags`. -/
theorem stripTags_noSpan (s : String) : hasTagSpan (stripTags s).data = false :=
  stripTagsFuel_noSpan s.data.length s.data (Nat.le_refl _)

/-! ## Data model (route.ts interfaces and oracle inputs) -/

/-- `interface Review` (route.ts 35–42). -/
structure Review where
  id : String
  rating : Int
  reviewer : String
  reviewerUrl : String
  date : String
  content : String
deriving DecidableEq

/-- `interface BookInfo` (route.ts 44–48). -/
structure BookInfo where
  title : String
  author : String
  coverUrl : String
deriving DecidableEq

/-- A user entity in the apollo entity cache, as read by the bootstrap
creator resolution (`userData.name`, `userData.webUrl`); fields may be
absent. -/
structure UserData where
  name : Option String
  webUrl : Option String
deriving DecidableEq

/-- A `Review:`-keyed entity of the apollo entity cache, with the
fields the bootstrap loop reads (route.ts 151–176); `creatorRef` is
`review.creator.__ref`. -/
structure ApolloReview where
  id : String
  rating : Int
  text : Option String
  createdAt : Option Int
  creatorRef : Option String
deriving DecidableEq

/-- `creator` of a GraphQL review node (route.ts 55–59), fields
possibly null. -/
structure GQLCreator where
  name : Option String
  webUrl : Option String
deriving DecidableEq

/-- `interface GraphQLReview` (route.ts 50–60), fields the loop reads. -/
structure GQLReviewNode where
  id : String
  rating : Int
  text : Option String
  createdAt : Option Int
  creator : Option GQLCreator
deriving DecidableEq

/-- A `Book:`-keyed entity, with the fields read at route.ts 129–143;
`contributorRef` is `book.primaryContributorEdge.__ref`. -/
structure BookEntity where
  title : Option String
  imageUrl : Option String
  contributorRef : Option String
deriving DecidableEq

/-- A contributor-edge entity (`contrib.node.__ref`). -/
structure ContribEntity where
  nodeRef : Option String
deriving DecidableEq

/-- An author entity (`authorData.name`). -/
structure AuthorEntity where
  name : Option String
deriving DecidableEq

/-- The root-query cache entry for the reviews query
(`rootQuery[getReviewsKey]` with its `pageInfo`), route.ts 179–190. -/
structure ReviewsData where
  nextPageToken : Option String
  totalCount : Option Int
deriving DecidableEq

/-- The parsed `apolloState` object, decomposed into the pieces
`fetchBookPageData` reads: the keys with `Work:kca://work/` prefix in
`Object.keys` order, the `Book:`-keyed entities in key order, the
reference-chain tables for contributor and author entities, the
`Review:`-keyed entities in key order, the user entities reachable
from review `creator.__ref` references, and `ROOT_QUERY` (outer
`Option`: the `ROOT_QUERY` object itself; inner `Option`: a key
starting with `getReviews` was found in it). -/
structure ApolloStateModel where
  workKeys : List String
  books : List BookEntity
  contribs : List (String × ContribEntity)
  authors : List (String × AuthorEntity)
  reviewEntities : List ApolloReview
  users : List (String × UserData)
  rootQuery : Option (Option ReviewsData)
deriving DecidableEq

/-- Outcome of `JSON.parse` on the `__NEXT_DATA__` script body:
`malformed` models a thrown parse error; `parsed` carries the fields
the route reads.  `runtimeConfigApiKey` is the already-resolved
`(nextData?.runtimeConfig || nextData?.props?.pageProps?.runtimeConfig)?.apiKey`. -/
structure NextDataModel where
  apolloState : Option ApolloStateModel
  runtimeConfigApiKey : Option String
deriving DecidableEq

inductive NextDataParse where
  | malformed
  | parsed (nd : NextDataModel)
deriving DecidableEq

/-- The oracle for the book-page fetch plus cheerio extraction:
`ok` is `response.ok`; `nextData` is the content of the
`#__NEXT_DATA__` element (`none` when the element is missing) and its
parse outcome; `scripts` are the inline script bodies in document
order (`$("script")`, each `.html() || ""`). -/
structure PageFetchResult where
  ok : Bool
  nextData : Option NextDataParse
  scripts : List String
deriving DecidableEq

/-- Result type of `fetchBookPageData` (route.ts 62–69). -/
structure BootstrapData where
  workId : String
  bookInfo : BookInfo
  initialReviews : List Review
  nextPageToken : Option String
  totalCount : Int
  apiKey : String
deriving DecidableEq

/-- `data?.data?.getReviews` of the GraphQL response (route.ts
242–266); `edges` may be null (`|| []`), and an edge's `node` may be
null (`if (node && ...)`). -/
structure GQLConnection where
  edges : Option (List (Option GQLReviewNode))
  nextPageToken : Option String
  totalCount : Option Int
deriving DecidableEq

/-- Oracle for the GraphQL POST: `ok` is `response.ok`; `getReviews`
is `none` when the JSON lacks the connection object (or parsing threw). -/
structure GraphQLResponse where
  ok : Bool
  getReviews : Option GQLConnection
deriving DecidableEq

/-- Result type of `fetchReviewsViaGraphQL` (route.ts 202–206). -/
structure GraphQLResult where
  reviews : List Review
  nextPageToken : Option String
  totalCount : Int
deriving DecidableEq

/-! ## Review normalization (the two loops) -/

/-- Bootstrap creator resolution (route.ts 154–163): follow
`review.creator.__ref` (a falsy ref is not followed) into the entity
cache; missing user data keeps the defaults; present user data applies
`userData.name || "Anonymous"` and `userData.webUrl || ""`. -/
def resolveCreator (users : List (String × UserData)) (ref : Option String) :
    String × String :=
  match ref with
  | none => ("Anonymous", "")
  | some r =>
    if r = "" then ("Anonymous", "")
    else
      match users.lookup r with
      | none => ("Anonymous", "")
      | some u => (jsOrStr u.name "Anonymous", jsOrStr u.webUrl "")

/-- Body of the bootstrap review loop (route.ts 165–174), applied to a
review entity that passed the rating filter. -/
def mkBootReview (humanDate : Int → String) (users : List (String × UserData))
    (r : ApolloReview) : Review :=
  let rc := resolveCreator users r.creatorRef
  { id := r.id
    rating := r.rating
    reviewer := rc.1
    reviewerUrl := rc.2
    date := jsDate humanDate r.createdAt
    content := jsOrStr (r.text.map stripTags) "" }

/-- The bootstrap review loop (route.ts 151–176): keep each
`Review:`-keyed entity with `rating >= 4`, normalized. -/
def bootstrapReviewsOf (humanDate : Int → String) (users : List (String × UserData))
    (rs : List ApolloReview) : List Review :=
  rs.filterMap fun r =>
    if r.rating ≥ 4 then some (mkBootReview humanDate users r) else none

/-- Body of the GraphQL edge loop (route.ts 250–259). -/
def mkGqlReview (humanDate : Int → String) (n : GQLReviewNode) : Review :=
  { id := n.id
    rating := n.rating
    reviewer := jsOrStr (n.creator.bind fun c => c.name) "Anonymous"
    reviewerUrl := jsOrStr (n.creator.bind fun c => c.webUrl) ""
    date := jsDate humanDate n.createdAt
    content := jsOrStr (n.text.map stripTags) "" }

/-- The GraphQL edge loop (route.ts 246–261): skip null nodes, keep
nodes with `rating >= 4`, normalized. -/
def graphqlReviewsOf (humanDate : Int → String)
    (edges : List (Option GQLReviewNode)) : List Review :=
  edges.filterMap fun e =>
    match e with
    | some n => if n.rating ≥ 4 then some (mkGqlReview humanDate n) else none
    | none => none

/-! ## Credential resolution (route.ts 7–8, 94–110) -/

/-- `const FALLBACK_API_KEY` (route.ts 8). -/
def FALLBACK_API_KEY : String := "da2-xpgsdydkbregjhpr6ejzqdhuwy"

/-- `true` for characters matched by `[a-z0-9]` under the `/i` flag. -/
def isKeyChar (c : Char) : Bool :=
  ('a' ≤ c.toLower ∧ c.toLower ≤ 'z') ∨ ('0' ≤ c ∧ c ≤ '9')

/-- Try to match `(da2-[a-z0-9]+)` (case-insensitively, greedily) at
the head of the list, returning the captured text. -/
def matchDa2At : List Char → Option (List Char)
  | d :: a :: two :: dash :: rest =>
    if d.toLower = 'd' ∧ a.toLower = 'a' ∧ two = '2' ∧ dash = '-' then
      let run := rest.takeWhile isKeyChar
      if run.isEmpty then none else some (d :: a :: two :: dash :: run)
    else none
  | _ => none

/-- Leftmost match of the AppSync key pattern
`/["']?(da2-[a-z0-9]+)["']?/i` in one script body (the optional quotes
never constrain the match, so the capture group is what matters). -/
def findDa2 : List Char → Option String
  | [] => none
  | c :: rest =>
    match matchDa2At (c :: rest) with
    | some m => some (String.mk m)
    | none => findDa2 rest

/-- The script-scanning loop (route.ts 96–105): first script with a
pattern match wins, and scanning stops there (`break`). -/
def scanScriptsForKey : List String → Option String
  | [] => none
  | s :: rest =>
    match findDa2 s.data with
    | some k => some k
    | none => scanScriptsForKey rest

/-- Full credential resolution (route.ts 95–110): start from the
fallback, let the first script match replace it, then let a truthy
`runtimeConfig.apiKey` override whatever was found. -/
def resolveApiKey (scripts : List String) (runtimeConfigApiKey : Option String) :
    String :=
  let scanned :=
    match scanScriptsForKey scripts with
    | some k => k
    | none => FALLBACK_API_KEY
  match runtimeConfigApiKey with
  | some k => if k = "" then scanned else k
  | none => scanned

/-! ## The two fetch paths and the GET handler -/

/-- Book-metadata extraction (route.ts 119–143): first `Book:` entity,
`title`/`imageUrl` with truthy defaults, author through the
contributor-edge and author-node reference chain. -/
def extractBookInfo (st : ApolloStateModel) : BookInfo :=
  match st.books.head? with
  | none => { title := "Unknown Title", author := "Unknown Author", coverUrl := "" }
  | some b =>
    let author :=
      match b.contributorRef with
      | some cref =>
        if cref = "" then "Unknown Author"
        else
          match st.contribs.lookup cref with
          | some contrib =>
            match contrib.nodeRef with
            | some nref =>
              if nref = "" then "Unknown Author"
              else
                match st.authors.lookup nref with
                | some a => jsOrStr a.name "Unknown Author"
                | none => "Unknown Author"
            | none => "Unknown Author"
          | none => "Unknown Author"
      | none => "Unknown Author"
    { title := jsOrStr b.title "Unknown Title"
      author := author
      coverUrl := jsOrStr b.imageUrl "" }

/-- Models the suffix extraction `workKey.replace("Work:", "")` for a
key that starts with `Work:` (5 characters). -/
def workIdOfKey (k : String) : String := k.drop 5

/-- `fetchBookPageData` (route.ts 62–196).  Returns `none` exactly on
the sub-failures of the source: non-ok response, missing
`__NEXT_DATA__` element, thrown `JSON.parse` (the catch), missing
`apolloState`, missing `Work:kca://work/` key, and a missing
`ROOT_QUERY` object (where `Object.keys(undefined)` throws into the
same catch). -/
def fetchBookPageData (humanDate : Int → String) (page : PageFetchResult) :
    Option BootstrapData :=
  if page.ok = false then none
  else
    match page.nextData with
    | none => none
    | some NextDataParse.malformed => none
    | some (NextDataParse.parsed nd) =>
      match nd.apolloState with
      | none => none
      | some st =>
        let apiKey := resolveApiKey page.scripts nd.runtimeConfigApiKey
        match st.workKeys.head? with
        | none => none
        | some workKey =>
          let bookInfo := extractBookInfo st
          let reviews := bootstrapReviewsOf humanDate st.users st.reviewEntities
          match st.rootQuery with
          | none => none
          | some reviewsData =>
            some
              { workId := workIdOfKey workKey
                bookInfo := bookInfo
                initialReviews := reviews
                nextPageToken := jsOrNullStr (reviewsData.bind fun rd => rd.nextPageToken)
                totalCount := (reviewsData.bind fun rd => rd.totalCount).getD 0
                apiKey := apiKey }

/-- `fetchReviewsViaGraphQL` (route.ts 198–271).  The request payload
(fixed filters, page size 30, optional `after` cursor, credential
header) only influences the upstream, which the `resp` oracle stands
for; the function models what the route computes from the response. -/
def fetchReviewsViaGraphQL (humanDate : Int → String) (resp : GraphQLResponse) :
    Option GraphQLResult :=
  if resp.ok = false then none
  else
    match resp.getReviews with
    | none => none
    | some conn =>
      some
        { reviews := graphqlReviewsOf humanDate (conn.edges.getD [])
          nextPageToken := jsOrNullStr conn.nextPageToken
          totalCount := conn.totalCount.getD 0 }

/-- The echoed pagination object; `apiKey = none` models the absence
of the field from the JSON object literal. -/
structure Pagination where
  currentPage : Option Int
  hasNext : Bool
  hasPrev : Bool
  nextPageToken : Option String
  workId : String
  apiKey : Option String
deriving DecidableEq

/-- A successful response body (route.ts 307–320 and 337–349). -/
structure SuccessBody where
  book : Option BookInfo
  reviews : List Review
  totalFiltered : Nat
  totalCount : Int
  pagination : Pagination
deriving DecidableEq

/-- A route response: `NextResponse.json` with either an error object
and status, or a success body (status 200). -/
inductive ApiResponse where
  | error (status : Nat) (msg : String)
  | success (body : SuccessBody)
deriving DecidableEq

/-- `{ error: "Missing 'url' query parameter" }` spelled without
apostrophe literals. -/
def missingUrlMsg : String := "Missing " ++ SQ ++ "url" ++ SQ ++ " query parameter"

/-- The query parameters of a request (`searchParams.get` results). -/
structure RequestParams where
  url : Option String
  pageParam : Option String
  pageToken : Option String
  workId : Option String
  apiKey : Option String
deriving DecidableEq

/-- `parseInt(searchParams.get("page") || "1", 10)` (route.ts 276);
`none` models `NaN`. -/
def parsedPage (p : RequestParams) : Option Int :=
  jsParseInt (jsOrStr p.pageParam "1")

/-- The page-1 / bootstrap branch of `GET` (route.ts 298–321). -/
def bootstrapResponse (humanDate : Int → String) (boot : PageFetchResult) :
    ApiResponse :=
  match fetchBookPageData humanDate boot with
  | none => ApiResponse.error 500 "Failed to fetch book data"
  | some pd =>
    ApiResponse.success
      { book := some pd.bookInfo
        reviews := pd.initialReviews
        totalFiltered := pd.initialReviews.length
        totalCount := pd.totalCount
        pagination :=
          { currentPage := some 1
            hasNext := pd.nextPageToken.isSome
            hasPrev := false
            nextPageToken := pd.nextPageToken
            workId := pd.workId
            apiKey := some pd.apiKey } }

/-- The subsequent-pages / GraphQL branch of `GET` (route.ts 324–349);
note the pagination object carries no `apiKey` field. -/
def cursorResponse (humanDate : Int → String) (gql : GraphQLResponse)
    (page : Option Int) (workId : String) : ApiResponse :=
  match fetchReviewsViaGraphQL humanDate gql with
  | none => ApiResponse.error 500 "Failed to fetch reviews"
  | some gr =>
    ApiResponse.success
      { book := none
        reviews := gr.reviews
        totalFiltered := gr.reviews.length
        totalCount := gr.totalCount
        pagination :=
          { currentPage := page
            hasNext := gr.nextPageToken.isSome
            hasPrev := jsGtOne page
            nextPageToken := gr.nextPageToken
            workId := workId
            apiKey := none } }

/-- `GET` (route.ts 273–357).  `boot` and `gql` are the oracles for
the two possible upstream calls; a branch that never reaches an
upstream call leaves the corresponding oracle unused. -/
def GET (humanDate : Int → String) (boot : PageFetchResult)
    (gql : GraphQLResponse) (p : RequestParams) : ApiResponse :=
  match p.url with
  | none => ApiResponse.error 400 missingUrlMsg
  | some url =>
    if url = "" then ApiResponse.error 400 missingUrlMsg
    else if strIncludes url "goodreads.com" = false then
      ApiResponse.error 400 "URL must be a Goodreads URL"
    else if parsedPage p = some 1 ∨ jsTruthyStr p.workId = false then
      bootstrapResponse humanDate boot
    else
      cursorResponse humanDate gql (parsedPage p) (p.workId.getD "")

/-! ## Shared lemmas -/

theorem mkBootReview_rating (hd : Int → String) (users : List (String × UserData))
    (r : ApolloReview) : (mkBootReview hd users r).rating = r.rating := rfl

theorem mkGqlReview_rating (hd : Int → String) (n : GQLReviewNode) :
    (mkGqlReview hd n).rating = n.rating := rfl

theorem mkBootReview_content (hd : Int → String) (users : List (String × UserData))
    (r : ApolloReview) :
    (mkBootReview hd users r).content = jsOrStr (r.text.map stripTags) "" := rfl

theorem mkGqlReview_content (hd : Int → String) (n : GQLReviewNode) :
    (mkGqlReview hd n).content = jsOrStr (n.text.map stripTags) "" := rfl

theorem jsOrStr_strip_noSpan (o : Option String) :
    hasTagSpan (jsOrStr (o.map stripTags) "").data = false := by
  match o with
  | none => rfl
  | some t =>
    simp only [Option.map_some, jsOrStr]
    by_cases h : stripTags t = ""
    · simp [h, hasTagSpan]
    · simpa [h] using stripTags_noSpan t

theorem mem_bootstrapReviewsOf (hd : Int → String) (users : List (String × UserData))
    (rs : List ApolloReview) (v : Review) (hv : v ∈ bootstrapReviewsOf hd users rs) :
    ∃ r ∈ rs, r.rating ≥ 4 ∧ v = mkBootReview hd users r := by
  rcases List.mem_filterMap.mp hv with ⟨r, hr, hmk⟩
  by_cases h4 : r.rating ≥ 4
  · refine ⟨r, hr, h4, ?_⟩
    simpa [h4] using hmk.symm
  · simp [h4] at hmk

theorem mem_graphqlReviewsOf (hd : Int → String) (edges : List (Option GQLReviewNode))
    (w : Review) (hw : w ∈ graphqlReviewsOf hd edges) :
    ∃ n : GQLReviewNode, some n ∈ edges ∧ n.rating ≥ 4 ∧ w = mkGqlReview hd n := by
  rcases List.mem_filterMap.mp hw with ⟨e, he, hmk⟩
  match e with
  | none => simp at hmk
  | some n =>
    by_cases h4 : n.rating ≥ 4
    · refine ⟨n, he, h4, ?_⟩
      simpa [h4] using hmk.symm
    · simp [h4] at hmk

/-! ## C1 -/

/-- C1: every `Review` produced by either fetch path (the bootstrap
extraction loop and the GraphQL edge loop) has rating 4 or 5, given
the upstream precondition that raw ratings are integers 1–5; no review
rated below 4 appears in a produced list. -/
theorem claim_C1 (hd : Int → String) (users : List (String × UserData))
    (rs : List ApolloReview) (es : List (Option GQLReviewNode)) (v w : Review)
    (hrs : ∀ r ∈ rs, 1 ≤ r.rating ∧ r.rating ≤ 5)
    (hes : ∀ e ∈ es, ∀ n ∈ e.toList, 1 ≤ n.rating ∧ n.rating ≤ 5)
    (hv : v ∈ bootstrapReviewsOf hd users rs)
    (hw : w ∈ graphqlReviewsOf hd es) :
    (v.rating = 4 ∨ v.rating = 5) ∧ (w.rating = 4 ∨ w.rating = 5) := by
  constructor
  · rcases mem_bootstrapReviewsOf hd users rs v hv with ⟨r, hr, h4, hvr⟩
    have h5 := (hrs r hr).2
    have : v.rating = r.rating := by rw [hvr, mkBootReview_rating]
    omega
  · rcases mem_graphqlReviewsOf hd es w hw with ⟨n, hn, h4, hwn⟩
    have h5 := (hes (some n) hn n (by simp)).2
    have : w.rating = n.rating := by rw [hwn, mkGqlReview_rating]
    omega

/-- Witness for C1 at concrete inputs. -/
theorem claim_C1_witness :
    ({ id := "r5", rating := 5, reviewer := "Anonymous", reviewerUrl := "",
       date := "", content := "ok" } : Review).rating = 4 ∨
    ({ id := "r5", rating := 5, reviewer := "Anonymous", reviewerUrl := "",
       date := "", content := "ok" } : Review).rating = 5 :=
  (claim_C1 (fun _ => "")
    []
    [{ id := "r5", rating := 5, text := some "ok", createdAt := none, creatorRef := none },
     { id := "r2", rating := 2, text := none, createdAt := none, creatorRef := none }]
    [some { id := "n4", rating := 4, text := none, createdAt := none, creator := none }]
    { id := "r5", rating := 5, reviewer := "Anonymous", reviewerUrl := "",
      date := "", content := "ok" }
    { id := "n4", rating := 4, reviewer := "Anonymous", reviewerUrl := "",
      date := "", content := "" }
    (by decide) (by decide) (by decide) (by decide)).1

/-! ## C2 -/

/-- C2: on both fetch paths the `content` of every produced `Review`
is the raw text with every `<...>` span removed left to right
(`stripTags`, the embedding of `replace(/<[^>]*>/g, "")`, defaulting
to `""` for absent text), and the result contains no `<...>` delimited
substring. -/
theorem claim_C2 (hd : Int → String) (users : List (String × UserData))
    (rs : List ApolloReview) (es : List (Option GQLReviewNode)) (v w : Review)
    (hv : v ∈ bootstrapReviewsOf hd users rs)
    (hw : w ∈ graphqlReviewsOf hd es) :
    hasTagSpan v.content.data = false ∧ hasTagSpan w.content.data = false := by
  constructor
  · rcases mem_bootstrapReviewsOf hd users rs v hv with ⟨r, _, _, hvr⟩
    have : v.content = jsOrStr (r.text.map stripTags) "" := by
      rw [hvr, mkBootReview_content]
    rw [this]
    exact jsOrStr_strip_noSpan r.text
  · rcases mem_graphqlReviewsOf hd es w hw with ⟨n, _, _, hwn⟩
    have : w.content = jsOrStr (n.text.map stripTags) "" := by
      rw [hwn, mkGqlReview_content]
    rw [this]
    exact jsOrStr_strip_noSpan n.text

/-- Witness for C2 at concrete inputs (text with markup on both paths). -/
theorem claim_C2_witness :
    hasTagSpan (String.data "great read") = false ∧
    hasTagSpan (String.data "niceone") = false :=
  claim_C2 (fun _ => "") []
    [{ id := "r5", rating := 5, text := some "<b>great</b> read",
       createdAt := none, creatorRef := none }]
    [some { id := "n4", rating := 4, text := some "nice<br>one",
            createdAt := none, creator := none }]
    { id := "r5", rating := 5, reviewer := "Anonymous", reviewerUrl := "",
      date := "", content := "great read" }
    { id := "n4", rating := 4, reviewer := "Anonymous", reviewerUrl := "",
      date := "", content := "niceone" }
    (by decide) (by decide)

/-! ## C3 -/

/-- A minimal apollo state whose bootstrap succeeds. -/
def stC3 : ApolloStateModel :=
  { workKeys := ["Work:kca://work/7"], books := [], contribs := [], authors := [],
    reviewEntities := [], users := [], rootQuery := some none }

/-- A fetched page whose scripts contain a credential-format match AND
whose runtime configuration carries a credential field. -/
def pageC3 : PageFetchResult :=
  { ok := true
    nextData := some (NextDataParse.parsed
      { apolloState := some stC3, runtimeConfigApiKey := some "da2-config99" })
    scripts := ["window.key = da2-abc123;"] }

/-- C3 counterexample: the script scan finds `da2-abc123`, yet the
resolved credential is the runtime-configuration value `da2-config99`
— the runtime-configuration field is consulted (and wins) even though
a script match was found, contradicting the claimed priority. -/
theorem claim_C3_cex :
    scanScriptsForKey pageC3.scripts = some "da2-abc123" ∧
    (fetchBookPageData (fun _ => "") pageC3).map BootstrapData.apiKey
      = some "da2-config99" ∧
    "da2-config99" ≠ "da2-abc123" := by
  refine ⟨by decide, by decide, by decide⟩

/-- C3 as amended: the bootstrap credential is resolved with the
priority runtime-configuration field (when truthy) first, then the
first script-scan pattern match, then the process-wide fallback
constant. -/
theorem claim_C3_amended (hd : Int → String) (page : PageFetchResult)
    (nd : NextDataModel) (bd : BootstrapData)
    (hnd : page.nextData = some (NextDataParse.parsed nd))
    (h : fetchBookPageData hd page = some bd) :
    bd.apiKey = jsOrStr nd.runtimeConfigApiKey
      (match scanScriptsForKey page.scripts with
       | some k => k
       | none => FALLBACK_API_KEY) := by
  unfold fetchBookPageData at h
  rw [hnd] at h
  split at h
  · simp at h
  · simp only at h
    split at h
    · simp at h
    · split at h
      · simp at h
      · split at h
        · simp at h
        · simp only [Option.some.injEq] at h
          rw [← h]
          cases hrc : nd.runtimeConfigApiKey <;>
            simp [resolveApiKey, jsOrStr, hrc]

/-- Witness for the amended C3 at a concrete bootstrap. -/
theorem claim_C3_amended_witness :
    ((fetchBookPageData (fun _ => "") pageC3).get (by decide)).apiKey
      = jsOrStr (some "da2-config99")
          (match scanScriptsForKey pageC3.scripts with
           | some k => k
           | none => FALLBACK_API_KEY) :=
  claim_C3_amended (fun _ => "") pageC3
    { apolloState := some stC3, runtimeConfigApiKey := some "da2-config99" }
    ((fetchBookPageData (fun _ => "") pageC3).get (by decide))
    (by decide) (by decide)

/-! ## GET structure lemmas -/

/-- A successful `GET` implies a present, non-empty, domain-matching
`url` parameter. -/
theorem GET_success_url (hd : Int → String) (boot : PageFetchResult)
    (gql : GraphQLResponse) (p : RequestParams) (body : SuccessBody)
    (h : GET hd boot gql p = ApiResponse.success body) :
    ∃ u, p.url = some u ∧ ¬u = "" ∧ strIncludes u "goodreads.com" = true := by
  unfold GET at h
  cases hu : p.url with
  | none => rw [hu] at h; simp at h
  | some u =>
    rw [hu] at h
    simp only at h
    by_cases h1 : u = ""
    · rw [if_pos h1] at h; simp at h
    · rw [if_neg h1] at h
      by_cases h2 : strIncludes u "goodreads.com" = false
      · rw [if_pos h2] at h; simp at h
      · exact ⟨u, rfl, h1, by simpa using h2⟩

/-- On a valid `url`, `GET` is exactly the two-mode dispatch of
route.ts 297. -/
theorem GET_valid_eq (hd : Int → String) (boot : PageFetchResult)
    (gql : GraphQLResponse) (p : RequestParams) (u : String)
    (hu : p.url = some u) (h1 : ¬u = "")
    (h2 : strIncludes u "goodreads.com" = true) :
    GET hd boot gql p =
      if parsedPage p = some 1 ∨ jsTruthyStr p.workId = false
      then bootstrapResponse hd boot
      else cursorResponse hd gql (parsedPage p) (p.workId.getD "") := by
  unfold GET
  rw [hu]
  simp only
  rw [if_neg h1, if_neg (by simp [h2])]

/-- Shape of a successful bootstrap-mode response. -/
theorem bootstrapResponse_success (hd : Int → String) (boot : PageFetchResult)
    (body : SuccessBody)
    (h : bootstrapResponse hd boot = ApiResponse.success body) :
    ∃ pd, fetchBookPageData hd boot = some pd ∧
      body =
        { book := some pd.bookInfo
          reviews := pd.initialReviews
          totalFiltered := pd.initialReviews.length
          totalCount := pd.totalCount
          pagination :=
            { currentPage := some 1
              hasNext := pd.nextPageToken.isSome
              hasPrev := false
              nextPageToken := pd.nextPageToken
              workId := pd.workId
              apiKey := some pd.apiKey } } := by
  unfold bootstrapResponse at h
  split at h
  · simp at h
  · rename_i pd hpd
    simp only [ApiResponse.success.injEq] at h
    exact ⟨pd, hpd, h.symm⟩

/-- Shape of a successful cursor-mode response. -/
theorem cursorResponse_success (hd : Int → String) (gql : GraphQLResponse)
    (page : Option Int) (workId : String) (body : SuccessBody)
    (h : cursorResponse hd gql page workId = ApiResponse.success body) :
    ∃ gr, fetchReviewsViaGraphQL hd gql = some gr ∧
      body =
        { book := none
          reviews := gr.reviews
          totalFiltered := gr.reviews.length
          totalCount := gr.totalCount
          pagination :=
            { currentPage := page
              hasNext := gr.nextPageToken.isSome
              hasPrev := jsGtOne page
              nextPageToken := gr.nextPageToken
              workId := workId
              apiKey := none } } := by
  unfold cursorResponse at h
  split at h
  · simp at h
  · rename_i gr hgr
    simp only [ApiResponse.success.injEq] at h
    exact ⟨gr, hgr, h.symm⟩

/-- The pagination object of a successful response. -/
def respPagination : ApiResponse → Option Pagination
  | ApiResponse.success b => some b.pagination
  | ApiResponse.error _ _ => none

/-! ## Concrete fixtures for witnesses and counterexamples -/

def hdW : Int → String := fun _ => "May 1, 2024"

def usersW : List (String × UserData) :=
  [("User:1", { name := some "Alice", webUrl := some "gr.example/alice" })]

def rW5 : ApolloReview :=
  { id := "r5", rating := 5, text := some "<b>great</b> read",
    createdAt := some 1700000000, creatorRef := some "User:1" }

def rW2 : ApolloReview :=
  { id := "r2", rating := 2, text := some "bad", createdAt := none, creatorRef := none }

def stW : ApolloStateModel :=
  { workKeys := ["Work:kca://work/42"]
    books := [{ title := some "T", imageUrl := some "img", contributorRef := none }]
    contribs := [], authors := []
    reviewEntities := [rW5, rW2], users := usersW
    rootQuery := some (some { nextPageToken := some "tok2", totalCount := some 10 }) }

def pageW : PageFetchResult :=
  { ok := true
    nextData := some (NextDataParse.parsed
      { apolloState := some stW, runtimeConfigApiKey := none })
    scripts := [] }

def nodeW4 : GQLReviewNode :=
  { id := "n4", rating := 4, text := some "nice<br>one", createdAt := some 5,
    creator := some { name := some "Bob", webUrl := some "gr.example/bob" } }

def nodeW1 : GQLReviewNode :=
  { id := "n1", rating := 1, text := none, createdAt := none, creator := none }

def gqlW : GraphQLResponse :=
  { ok := true
    getReviews := some
      { edges := some [some nodeW4, none, some nodeW1]
        nextPageToken := some "tok3", totalCount := some 9 } }

def pW1 : RequestParams :=
  { url := some "www.goodreads.com/book/show/1", pageParam := none,
    pageToken := none, workId := none, apiKey := none }

def pW2 : RequestParams :=
  { url := some "www.goodreads.com/book/show/1", pageParam := some "2",
    pageToken := some "tok2", workId := some "kca-w", apiKey := some "da2-k" }

/-- The bootstrap result of the fixture page. -/
def bdW : BootstrapData :=
  { workId := "kca://work/42"
    bookInfo := { title := "T", author := "Unknown Author", coverUrl := "img" }
    initialReviews :=
      [{ id := "r5", rating := 5, reviewer := "Alice",
         reviewerUrl := "gr.example/alice", date := "May 1, 2024",
         content := "great read" }]
    nextPageToken := some "tok2"
    totalCount := 10
    apiKey := FALLBACK_API_KEY }

/-- The cursor-fetch result of the fixture GraphQL response. -/
def grW : GraphQLResult :=
  { reviews :=
      [{ id := "n4", rating := 4, reviewer := "Bob",
         reviewerUrl := "gr.example/bob", date := "May 1, 2024",
         content := "niceone" }]
    nextPageToken := some "tok3"
    totalCount := 9 }

/-! ## C4 -/

/-- C4 counterexample: a successful CursorFetch response (page 2 with
a supplied workId) whose pagination object has no `apiKey` field at
all (route.ts 342–348 builds the object without it) — so it does not
echo back the AccessCredential, refuting the claim for this request. -/
theorem claim_C4_cex :
    (respPagination (GET hdW pageW gqlW pW2)).map Pagination.apiKey = some none ∧
    (respPagination (GET hdW pageW gqlW pW2)).map Pagination.workId = some "kca-w" := by
  refine ⟨by decide, by decide⟩

/-- C4 as amended: only Bootstrap-mode success responses echo both the
work identifier and the credential; CursorFetch success responses echo
the supplied workId but carry no apiKey field. -/
theorem claim_C4_amended (hd : Int → String) (boot : PageFetchResult)
    (gql : GraphQLResponse) (p : RequestParams) (body : SuccessBody)
    (bd : BootstrapData)
    (h : GET hd boot gql p = ApiResponse.success body) :
    ((parsedPage p = some 1 ∨ jsTruthyStr p.workId = false) →
       fetchBookPageData hd boot = some bd →
       body.pagination.apiKey = some bd.apiKey ∧
       body.pagination.workId = bd.workId) ∧
    (¬(parsedPage p = some 1 ∨ jsTruthyStr p.workId = false) →
       body.pagination.apiKey = none ∧
       body.pagination.workId = p.workId.getD "") := by
  obtain ⟨u, hu, h1, h2⟩ := GET_success_url hd boot gql p body h
  rw [GET_valid_eq hd boot gql p u hu h1 h2] at h
  constructor
  · intro hmode hbd
    rw [if_pos hmode] at h
    obtain ⟨pd, hpd, hbody⟩ := bootstrapResponse_success hd boot body h
    have hpb : pd = bd := by rw [hpd] at hbd; exact Option.some.inj hbd
    subst hpb
    rw [hbody]
    exact ⟨rfl, rfl⟩
  · intro hmode
    rw [if_neg hmode] at h
    obtain ⟨gr, hgr, hbody⟩ :=
      cursorResponse_success hd gql (parsedPage p) (p.workId.getD "") body h
    rw [hbody]
    exact ⟨rfl, rfl⟩

/-- The concrete CursorFetch success body for the fixture request. -/
def bodyW2 : SuccessBody :=
  { book := none
    reviews := grW.reviews
    totalFiltered := 1
    totalCount := 9
    pagination :=
      { currentPage := some 2, hasNext := true, hasPrev := true,
        nextPageToken := some "tok3", workId := "kca-w", apiKey := none } }

/-- Witness for the amended C4, exercising the CursorFetch side. -/
theorem claim_C4_amended_witness :
    ((parsedPage pW2 = some 1 ∨ jsTruthyStr pW2.workId = false) →
       fetchBookPageData hdW pageW = some bdW →
       bodyW2.pagination.apiKey = some bdW.apiKey ∧
       bodyW2.pagination.workId = bdW.workId) ∧
    (¬(parsedPage pW2 = some 1 ∨ jsTruthyStr pW2.workId = false) →
       bodyW2.pagination.apiKey = none ∧
       bodyW2.pagination.workId = pW2.workId.getD "") :=
  claim_C4_amended hdW pageW gqlW pW2 bodyW2 bdW (by decide)

/-! ## C5 -/

/-- C5: a request whose page parameter parses to 1 is served in
Bootstrap mode regardless of any supplied `workId`/`apiKey`/`pageToken`
(replacing them, and the GraphQL oracle, leaves the response
unchanged), and a successful response has `currentPage = 1`,
`hasPrev = false`, and `hasNext` true exactly when the bootstrap
`nextPageToken` is non-null. -/
theorem claim_C5 (hd : Int → String) (boot : PageFetchResult)
    (gql gql2 : GraphQLResponse) (w a t : Option String)
    (p : RequestParams) (body : SuccessBody) (bd : BootstrapData)
    (hp : parsedPage p = some 1)
    (hbd : fetchBookPageData hd boot = some bd)
    (h : GET hd boot gql p = ApiResponse.success body) :
    GET hd boot gql2 { p with workId := w, apiKey := a, pageToken := t }
      = ApiResponse.success body ∧
    body.pagination.currentPage = some 1 ∧
    body.pagination.hasPrev = false ∧
    body.pagination.hasNext = bd.nextPageToken.isSome ∧
    body.pagination.nextPageToken = bd.nextPageToken ∧
    body.book = some bd.bookInfo := by
  obtain ⟨u, hu, h1, h2⟩ := GET_success_url hd boot gql p body h
  rw [GET_valid_eq hd boot gql p u hu h1 h2, if_pos (Or.inl hp)] at h
  have hu' : ({ p with workId := w, apiKey := a, pageToken := t } : RequestParams).url
      = some u := hu
  have hp' : parsedPage { p with workId := w, apiKey := a, pageToken := t }
      = some 1 := hp
  rw [GET_valid_eq hd boot gql2 _ u hu' h1 h2, if_pos (Or.inl hp')]
  refine ⟨h, ?_⟩
  obtain ⟨pd, hpd, hbody⟩ := bootstrapResponse_success hd boot body h
  have hpb : pd = bd := by rw [hpd] at hbd; exact Option.some.inj hbd
  subst hpb
  rw [hbody]
  exact ⟨rfl, rfl, rfl, rfl, rfl⟩

/-- The concrete Bootstrap success body for the fixture request. -/
def bodyW1 : SuccessBody :=
  { book := some bdW.bookInfo
    reviews := bdW.initialReviews
    totalFiltered := 1
    totalCount := 10
    pagination :=
      { currentPage := some 1, hasNext := true, hasPrev := false,
        nextPageToken := some "tok2", workId := "kca://work/42",
        apiKey := some FALLBACK_API_KEY } }

/-- Witness for C5: the fixture page-1 request, with extraneous
session parameters injected. -/
theorem claim_C5_witness :
    GET hdW pageW gqlW
        { pW1 with workId := some "zzz", apiKey := some "da2-x", pageToken := some "t" }
      = ApiResponse.success bodyW1 ∧
    bodyW1.pagination.currentPage = some 1 ∧
    bodyW1.pagination.hasPrev = false ∧
    bodyW1.pagination.hasNext = bdW.nextPageToken.isSome ∧
    bodyW1.pagination.nextPageToken = bdW.nextPageToken ∧
    bodyW1.book = some bdW.bookInfo :=
  claim_C5 hdW pageW gqlW gqlW (some "zzz") (some "da2-x") (some "t")
    pW1 bodyW1 bdW (by decide) (by decide) (by decide)

/-! ## C6 -/

/-- C6: a successful request with page > 1 and a truthy `workId` has
`book = null`, while reviews, totalCount and the pagination fields are
all populated from the GraphQL query-service result. -/
theorem claim_C6 (hd : Int → String) (boot : PageFetchResult)
    (gql : GraphQLResponse) (p : RequestParams) (body : SuccessBody)
    (gr : GraphQLResult) (n : Int)
    (hp : parsedPage p = some n) (hn : 1 < n)
    (hw : jsTruthyStr p.workId = true)
    (hgr : fetchReviewsViaGraphQL hd gql = some gr)
    (h : GET hd boot gql p = ApiResponse.success body) :
    body.book = none ∧
    body.reviews = gr.reviews ∧
    body.totalFiltered = gr.reviews.length ∧
    body.totalCount = gr.totalCount ∧
    body.pagination.currentPage = some n ∧
    body.pagination.hasPrev = true ∧
    body.pagination.hasNext = gr.nextPageToken.isSome ∧
    body.pagination.nextPageToken = gr.nextPageToken := by
  obtain ⟨u, hu, h1, h2⟩ := GET_success_url hd boot gql p body h
  have hmode : ¬(parsedPage p = some 1 ∨ jsTruthyStr p.workId = false) := by
    rintro (hx | hx)
    · rw [hp] at hx
      have := Option.some.inj hx
      omega
    · rw [hw] at hx
      simp at hx
  rw [GET_valid_eq hd boot gql p u hu h1 h2, if_neg hmode] at h
  obtain ⟨gr', hgr', hbody⟩ :=
    cursorResponse_success hd gql (parsedPage p) (p.workId.getD "") body h
  have hgg : gr' = gr := by rw [hgr'] at hgr; exact Option.some.inj hgr
  subst hgg
  rw [hbody]
  refine ⟨rfl, rfl, rfl, rfl, ?_, ?_, rfl, rfl⟩
  · exact hp
  · show jsGtOne (parsedPage p) = true
    rw [hp]
    simp [jsGtOne, hn]

/-- Witness for C6: the fixture page-2 request. -/
theorem claim_C6_witness :
    bodyW2.book = none ∧
    bodyW2.reviews = grW.reviews ∧
    bodyW2.totalFiltered = grW.reviews.length ∧
    bodyW2.totalCount = grW.totalCount ∧
    bodyW2.pagination.currentPage = some 2 ∧
    bodyW2.pagination.hasPrev = true ∧
    bodyW2.pagination.hasNext = grW.nextPageToken.isSome ∧
    bodyW2.pagination.nextPageToken = grW.nextPageToken :=
  claim_C6 hdW pageW gqlW pW2 bodyW2 grW 2
    (by decide) (by decide) (by decide) (by decide) (by decide)

/-! ## C7 -/

/-- C7: a request with no `url` parameter (absent, or the falsy empty
string, which `!url` also rejects) gets status 400 with the
missing-parameter message; a request whose `url` does not contain the
Goodreads domain gets status 400 with the domain message.  The
bootstrap and GraphQL oracles are universally quantified and unused:
no upstream fetch influences these responses. -/
theorem claim_C7 (hd : Int → String) (boot : PageFetchResult)
    (gql : GraphQLResponse) (p : RequestParams) (u : String) :
    (p.url = none → GET hd boot gql p = ApiResponse.error 400 missingUrlMsg) ∧
    (p.url = some "" → GET hd boot gql p = ApiResponse.error 400 missingUrlMsg) ∧
    (p.url = some u → u ≠ "" → strIncludes u "goodreads.com" = false →
      GET hd boot gql p = ApiResponse.error 400 "URL must be a Goodreads URL") := by
  refine ⟨fun h0 => ?_, fun h0 => ?_, fun h0 h1 h2 => ?_⟩
  · unfold GET
    rw [h0]
  · unfold GET
    rw [h0]
    simp
  · unfold GET
    rw [h0]
    simp only
    rw [if_neg h1, if_pos h2]

/-- Witness for C7 at concrete requests. -/
theorem claim_C7_witness :
    GET hdW pageW gqlW { pW1 with url := none }
      = ApiResponse.error 400 missingUrlMsg ∧
    GET hdW pageW gqlW { pW1 with url := some "example.com/book" }
      = ApiResponse.error 400 "URL must be a Goodreads URL" :=
  ⟨(claim_C7 hdW pageW gqlW { pW1 with url := none } "x").1 rfl,
   (claim_C7 hdW pageW gqlW { pW1 with url := some "example.com/book" }
      "example.com/book").2.2 rfl (by decide) (by decide)⟩

/-! ## C8 -/

/-- C8: every bootstrap sub-failure — non-ok page fetch, missing
hydration-state script element, malformed embedded JSON, missing
`apolloState`, missing work entity, missing root-query object — makes
`fetchBookPageData` return the same bare failure (`none`, no partial
result), and in Bootstrap mode any such failure surfaces as the single
opaque 500 response with the one generic message, with no distinction
between sub-causes. -/
theorem claim_C8 (hd : Int → String) (scripts : List String)
    (nxt : Option NextDataParse) (nd : NextDataModel) (st : ApolloStateModel)
    (boot : PageFetchResult) (gql : GraphQLResponse) (p : RequestParams)
    (u : String)
    (hu : p.url = some u) (h1 : u ≠ "")
    (h2 : strIncludes u "goodreads.com" = true)
    (hmode : parsedPage p = some 1 ∨ jsTruthyStr p.workId = false)
    (hboot : fetchBookPageData hd boot = none) :
    fetchBookPageData hd { ok := false, nextData := nxt, scripts := scripts } = none ∧
    fetchBookPageData hd { ok := true, nextData := none, scripts := scripts } = none ∧
    fetchBookPageData hd
      { ok := true, nextData := some NextDataParse.malformed, scripts := scripts }
      = none ∧
    fetchBookPageData hd
      { ok := true
        nextData := some (NextDataParse.parsed { nd with apolloState := none })
        scripts := scripts } = none ∧
    fetchBookPageData hd
      { ok := true
        nextData := some (NextDataParse.parsed
          { nd with apolloState := some { st with workKeys := [] } })
        scripts := scripts } = none ∧
    fetchBookPageData hd
      { ok := true
        nextData := some (NextDataParse.parsed
          { nd with apolloState := some { st with rootQuery := none } })
        scripts := scripts } = none ∧
    GET hd boot gql p = ApiResponse.error 500 "Failed to fetch book data" := by
  refine ⟨?_, ?_, ?_, ?_, ?_, ?_, ?_⟩
  · simp [fetchBookPageData]
  · simp [fetchBookPageData]
  · simp [fetchBookPageData]
  · simp [fetchBookPageData]
  · simp [fetchBookPageData]
  · simp [fetchBookPageData]
    cases st.workKeys.head? <;> rfl
  · rw [GET_valid_eq hd boot gql p u hu h1 h2, if_pos hmode]
    unfold bootstrapResponse
    rw [hboot]

/-- Witness for C8: a failing bootstrap (non-ok fetch) behind a valid
page-1 request. -/
theorem claim_C8_witness :
    fetchBookPageData hdW { ok := false, nextData := pageW.nextData, scripts := [] }
      = none ∧
    fetchBookPageData hdW { ok := true, nextData := none, scripts := [] } = none ∧
    fetchBookPageData hdW
      { ok := true, nextData := some NextDataParse.malformed, scripts := [] } = none ∧
    fetchBookPageData hdW
      { ok := true
        nextData := some (NextDataParse.parsed
          { ({ apolloState := some stW, runtimeConfigApiKey := none } : NextDataModel)
            with apolloState := none })
        scripts := [] } = none ∧
    fetchBookPageData hdW
      { ok := true
        nextData := some (NextDataParse.parsed
          { ({ apolloState := some stW, runtimeConfigApiKey := none } : NextDataModel)
            with apolloState := some { stW with workKeys := [] } })
        scripts := [] } = none ∧
    fetchBookPageData hdW
      { ok := true
        nextData := some (NextDataParse.parsed
          { ({ apolloState := some stW, runtimeConfigApiKey := none } : NextDataModel)
            with apolloState := some { stW with rootQuery := none } })
        scripts := [] } = none ∧
    GET hdW { pageW with ok := false } gqlW pW1
      = ApiResponse.error 500 "Failed to fetch book data" :=
  claim_C8 hdW [] pageW.nextData
    { apolloState := some stW, runtimeConfigApiKey := none } stW
    { pageW with ok := false } gqlW pW1 "www.goodreads.com/book/show/1"
    (by decide) (by decide) (by decide) (Or.inl (by decide)) (by decide)

/-! ## C9 -/

/-- A date oracle that renders every timestamp (including epoch 0) as
a non-empty string, as `toLocaleDateString` does. -/
def hdE : Int → String := fun _ => "EPOCH"

/-- GraphQL node with empty-string creator fields and a zero
timestamp — present values that are falsy. -/
def nodeC9 : GQLReviewNode :=
  { id := "n9", rating := 5, text := some "ok", createdAt := some 0,
    creator := some { name := some "", webUrl := some "" } }

/-- GraphQL node with truthy creator name and timestamp, absent text. -/
def nodeC9B : GQLReviewNode :=
  { id := "nb", rating := 4, text := none, createdAt := some 7,
    creator := some { name := some "Bob", webUrl := some "" } }

/-- Bootstrap review entity pointing at a user entity whose name is
the empty string. -/
def rC9 : ApolloReview :=
  { id := "r9", rating := 4, text := some "ok", createdAt := some 0,
    creatorRef := some "User:9" }

/-- Bootstrap review entity with no creator reference. -/
def rC9B : ApolloReview :=
  { id := "rb", rating := 5, text := none, createdAt := none, creatorRef := none }

def usersC9 : List (String × UserData) :=
  [("User:9", { name := some "", webUrl := some "" })]

/-- C9 counterexample: with `creator.name = ""` present and
`createdAt = 0` present, the normalizer yields
`reviewer = "Anonymous"` (not the empty string the claimed
nullish-coalescing semantics would keep) and `date = ""` (not the
human-readable form of the present timestamp): both paths use JS `||`
/ truthiness, not `??` / presence. -/
theorem claim_C9_cex :
    (mkGqlReview hdE nodeC9).reviewer = "Anonymous" ∧
    (mkGqlReview hdE nodeC9).reviewer ≠ "" ∧
    (mkGqlReview hdE nodeC9).date = "" ∧
    (mkGqlReview hdE nodeC9).date ≠ hdE 0 ∧
    (mkBootReview hdE usersC9 rC9).reviewer = "Anonymous" ∧
    nodeC9.creator.bind GQLCreator.name = some "" ∧
    nodeC9.createdAt = some 0 ∧
    hdE 0 = "EPOCH" := by decide

/-- C9 as amended: on both fetch paths the normalizer uses logical-OR
(truthiness) semantics — `reviewer = creator.name || "Anonymous"`,
`reviewerUrl = creator.webUrl || ""`, `date = createdAt ?
humanDate(createdAt) : ""` — so an empty-string name is replaced by
the default and a zero timestamp yields the empty date. -/
theorem claim_C9_amended (hd : Int → String) (users : List (String × UserData))
    (r : ApolloReview) (n : GQLReviewNode) (cg : GQLCreator) (ub : UserData)
    (s key : String) (t : Int) :
    (n.creator = some cg → cg.name = some "" →
      (mkGqlReview hd n).reviewer = "Anonymous") ∧
    (n.creator = some cg → cg.name = some s → s ≠ "" →
      (mkGqlReview hd n).reviewer = s) ∧
    (n.creator = none →
      (mkGqlReview hd n).reviewer = "Anonymous" ∧
      (mkGqlReview hd n).reviewerUrl = "") ∧
    (n.creator = some cg → cg.webUrl = some "" →
      (mkGqlReview hd n).reviewerUrl = "") ∧
    (n.createdAt = none → (mkGqlReview hd n).date = "") ∧
    (n.createdAt = some 0 → (mkGqlReview hd n).date = "") ∧
    (n.createdAt = some t → t ≠ 0 → (mkGqlReview hd n).date = hd t) ∧
    (n.text = none → (mkGqlReview hd n).content = "") ∧
    (r.creatorRef = none →
      (mkBootReview hd users r).reviewer = "Anonymous" ∧
      (mkBootReview hd users r).reviewerUrl = "") ∧
    (r.creatorRef = some key → key ≠ "" → users.lookup key = some ub →
      ub.name = some "" → (mkBootReview hd users r).reviewer = "Anonymous") ∧
    (r.creatorRef = some key → key ≠ "" → users.lookup key = some ub →
      ub.name = some s → s ≠ "" → (mkBootReview hd users r).reviewer = s) := by
  refine ⟨?_, ?_, ?_, ?_, ?_, ?_, ?_, ?_, ?_, ?_, ?_⟩
  · intro hc hn
    simp [mkGqlReview, jsOrStr, hc, hn]
  · intro hc hn hs
    simp [mkGqlReview, jsOrStr, hc, hn, hs]
  · intro hc
    exact ⟨by simp [mkGqlReview, jsOrStr, hc], by simp [mkGqlReview, jsOrStr, hc]⟩
  · intro hc hw
    simp [mkGqlReview, jsOrStr, hc, hw]
  · intro hc
    simp [mkGqlReview, jsDate, hc]
  · intro hc
    simp [mkGqlReview, jsDate, hc]
  · intro hc ht
    simp [mkGqlReview, jsDate, hc, ht]
  · intro hc
    simp [mkGqlReview, jsOrStr, hc]
  · intro hc
    exact ⟨by simp [mkBootReview, resolveCreator, hc],
           by simp [mkBootReview, resolveCreator, hc]⟩
  · intro hc hk hl hn
    simp [mkBootReview, resolveCreator, jsOrStr, hc, hk, hl, hn]
  · intro hc hk hl hn hs
    simp [mkBootReview, resolveCreator, jsOrStr, hc, hk, hl, hn, hs]

/-- Witness for the amended C9, discharging each scenario at a
concrete record. -/
theorem claim_C9_amended_witness :
    (mkGqlReview hdE nodeC9).reviewer = "Anonymous" ∧
    (mkGqlReview hdE nodeC9B).reviewer = "Bob" ∧
    (mkGqlReview hdE nodeC9).date = "" ∧
    (mkGqlReview hdE nodeC9B).date = hdE 7 ∧
    (mkGqlReview hdE nodeC9B).content = "" ∧
    (mkBootReview hdE usersC9 rC9).reviewer = "Anonymous" ∧
    (mkBootReview hdE [] rC9B).reviewer = "Anonymous" :=
  ⟨(claim_C9_amended hdE usersC9 rC9 nodeC9 ⟨some "", some ""⟩ ⟨some "", some ""⟩
      "Bob" "User:9" 0).1 rfl rfl,
   (claim_C9_amended hdE usersC9 rC9 nodeC9B ⟨some "Bob", some ""⟩ ⟨some "", some ""⟩
      "Bob" "User:9" 0).2.1 rfl rfl (by decide),
   (claim_C9_amended hdE usersC9 rC9 nodeC9 ⟨some "", some ""⟩ ⟨some "", some ""⟩
      "Bob" "User:9" 0).2.2.2.2.2.1 rfl,
   (claim_C9_amended hdE usersC9 rC9 nodeC9B ⟨some "", some ""⟩ ⟨some "", some ""⟩
      "Bob" "User:9" 7).2.2.2.2.2.2.1 rfl (by decide),
   (claim_C9_amended hdE usersC9 rC9 nodeC9B ⟨some "", some ""⟩ ⟨some "", some ""⟩
      "Bob" "User:9" 0).2.2.2.2.2.2.2.1 rfl,
   (claim_C9_amended hdE usersC9 rC9 nodeC9 ⟨some "", some ""⟩ ⟨some "", some ""⟩
      "Bob" "User:9" 0).2.2.2.2.2.2.2.2.2.1 rfl (by decide) (by decide) rfl,
   ((claim_C9_amended hdE [] rC9B nodeC9 ⟨some "", some ""⟩ ⟨some "", some ""⟩
      "Bob" "User:9" 0).2.2.2.2.2.2.2.2.1 rfl).1⟩

/-! ## C10 -/

/-- C10: the page parameter is parsed with `parseInt` over a `"1"`
default; whenever the parsed value is not exactly 1 (0, negatives, or
`NaN` from a non-numeric string, modelled as `none`) and a truthy
`workId` is supplied, the request is served in CursorFetch mode (the
bootstrap oracle is irrelevant), the response echoes the parsed value
as `currentPage`, and `hasPrev` is the JS comparison `page > 1` —
false for 0 and for `NaN`. -/
theorem claim_C10 (hd : Int → String) (boot boot2 : PageFetchResult)
    (gql : GraphQLResponse) (p : RequestParams) (body : SuccessBody)
    (hne : parsedPage p ≠ some 1)
    (hwk : jsTruthyStr p.workId = true)
    (h : GET hd boot gql p = ApiResponse.success body) :
    GET hd boot2 gql p = ApiResponse.success body ∧
    body.pagination.currentPage = parsedPage p ∧
    body.pagination.hasPrev = jsGtOne (parsedPage p) ∧
    jsGtOne none = false ∧
    jsGtOne (some 0) = false ∧
    parsedPage { p with pageParam := none } = some 1 ∧
    jsParseInt "abc" = none := by
  obtain ⟨u, hu, h1, h2⟩ := GET_success_url hd boot gql p body h
  have hmode : ¬(parsedPage p = some 1 ∨ jsTruthyStr p.workId = false) := by
    rintro (hx | hx)
    · exact hne hx
    · rw [hwk] at hx
      simp at hx
  rw [GET_valid_eq hd boot gql p u hu h1 h2, if_neg hmode] at h
  rw [GET_valid_eq hd boot2 gql p u hu h1 h2, if_neg hmode]
  refine ⟨h, ?_, ?_, rfl, by decide, rfl, by decide⟩
  · obtain ⟨gr, hgr, hbody⟩ :=
      cursorResponse_success hd gql (parsedPage p) (p.workId.getD "") body h
    rw [hbody]
  · obtain ⟨gr, hgr, hbody⟩ :=
      cursorResponse_success hd gql (parsedPage p) (p.workId.getD "") body h
    rw [hbody]

/-- The concrete CursorFetch success body for the page-0 fixture
request (`hasPrev = false` although CursorFetch served it). -/
def bodyW0 : SuccessBody :=
  { book := none
    reviews := grW.reviews
    totalFiltered := 1
    totalCount := 9
    pagination :=
      { currentPage := some 0, hasNext := true, hasPrev := false,
        nextPageToken := some "tok3", workId := "kca-w", apiKey := none } }

/-- Witness for C10: `page=0` with a supplied workId. -/
theorem claim_C10_witness :
    GET hdW { pageW with ok := false } gqlW { pW2 with pageParam := some "0" }
      = ApiResponse.success bodyW0 ∧
    bodyW0.pagination.currentPage = parsedPage { pW2 with pageParam := some "0" } ∧
    bodyW0.pagination.hasPrev = jsGtOne (parsedPage { pW2 with pageParam := some "0" }) ∧
    jsGtOne none = false ∧
    jsGtOne (some 0) = false ∧
    parsedPage { { pW2 with pageParam := some "0" } with pageParam := none } = some 1 ∧
    jsParseInt "abc" = none :=
  claim_C10 hdW pageW { pageW with ok := false } gqlW
    { pW2 with pageParam := some "0" } bodyW0
    (by decide) (by decide) (by decide)
